import Mathlib

/-!
Shallow embedding of the Magnetica backend segment-classification engine
(`validateSegmentClassification` and its helpers in the enterprise server
source).  JavaScript numbers are modelled as exact rationals extended with
the IEEE special values `+Infinity`, `-Infinity` and `NaN`; JavaScript
values reaching the classifier are modelled by `JSValue`.  All definitions
are translated directly from the source functions.
-/

/-- A JavaScript number: a finite value (modelled exactly, as a rational),
`+Infinity`, `-Infinity`, or `NaN`. -/
inductive JSNum where
  | fin (q : ℚ)
  | pinf
  | ninf
  | nan
deriving DecidableEq, Repr

/-- `isNaN(x)` for a JavaScript number. -/
def jsIsNaN : JSNum → Bool
  | .nan => true
  | _ => false

/-- JavaScript `+` on numbers (IEEE semantics, exact finite arithmetic). -/
def jsAdd : JSNum → JSNum → JSNum
  | .nan, _ => .nan
  | _, .nan => .nan
  | .pinf, .ninf => .nan
  | .ninf, .pinf => .nan
  | .pinf, _ => .pinf
  | _, .pinf => .pinf
  | .ninf, _ => .ninf
  | _, .ninf => .ninf
  | .fin a, .fin b => .fin (a + b)

/-- JavaScript `*` on numbers (IEEE semantics, exact finite arithmetic). -/
def jsMul : JSNum → JSNum → JSNum
  | .nan, _ => .nan
  | _, .nan => .nan
  | .pinf, .pinf => .pinf
  | .pinf, .ninf => .ninf
  | .ninf, .pinf => .ninf
  | .ninf, .ninf => .pinf
  | .pinf, .fin b => if b = 0 then .nan else if 0 < b then .pinf else .ninf
  | .fin a, .pinf => if a = 0 then .nan else if 0 < a then .pinf else .ninf
  | .ninf, .fin b => if b = 0 then .nan else if 0 < b then .ninf else .pinf
  | .fin a, .ninf => if a = 0 then .nan else if 0 < a then .ninf else .pinf
  | .fin a, .fin b => .fin (a * b)

/-- JavaScript `/` on numbers (IEEE semantics; the sign of a zero is not
tracked, which is irrelevant here since the source only divides by the
positive constants 120, 600 and 10). -/
def jsDiv : JSNum → JSNum → JSNum
  | .nan, _ => .nan
  | _, .nan => .nan
  | .pinf, .pinf => .nan
  | .pinf, .ninf => .nan
  | .ninf, .pinf => .nan
  | .ninf, .ninf => .nan
  | .pinf, .fin b => if b < 0 then .ninf else .pinf
  | .ninf, .fin b => if b < 0 then .pinf else .ninf
  | .fin _, .pinf => .fin 0
  | .fin _, .ninf => .fin 0
  | .fin a, .fin b =>
      if b = 0 then (if a = 0 then .nan else if 0 < a then .pinf else .ninf)
      else .fin (a / b)

/-- JavaScript `Math.min` on two numbers (`NaN` propagates). -/
def jsMin : JSNum → JSNum → JSNum
  | .nan, _ => .nan
  | _, .nan => .nan
  | .ninf, _ => .ninf
  | _, .ninf => .ninf
  | .pinf, b => b
  | a, .pinf => a
  | .fin a, .fin b => .fin (min a b)

/-- JavaScript `Math.max` on two numbers (`NaN` propagates). -/
def jsMax : JSNum → JSNum → JSNum
  | .nan, _ => .nan
  | _, .nan => .nan
  | .pinf, _ => .pinf
  | _, .pinf => .pinf
  | .ninf, b => b
  | a, .ninf => a
  | .fin a, .fin b => .fin (max a b)

/-- JavaScript `a > b` on numbers (any comparison with `NaN` is false). -/
def jsGt : JSNum → JSNum → Bool
  | .nan, _ => false
  | _, .nan => false
  | .pinf, .pinf => false
  | .pinf, _ => true
  | _, .pinf => false
  | .ninf, .ninf => false
  | .ninf, _ => false
  | _, .ninf => true
  | .fin a, .fin b => decide (b < a)

/-- JavaScript `a >= b` on numbers (any comparison with `NaN` is false). -/
def jsGe : JSNum → JSNum → Bool
  | .nan, _ => false
  | _, .nan => false
  | .pinf, _ => true
  | _, .pinf => false
  | _, .ninf => true
  | .ninf, _ => false
  | .fin a, .fin b => decide (b ≤ a)

/-- A JavaScript value as seen by the classifier: `undefined`, `null`, a
number, a boolean, or any other defined non-numeric, non-boolean value
(string, object, ...).  The `other` case is always rejected by the
classifier's type validation before any arithmetic or truthiness test on
it could matter. -/
inductive JSValue where
  | undef
  | null
  | num (n : JSNum)
  | boolean (b : Bool)
  | other
deriving DecidableEq, Repr

/-- JavaScript truthiness of a value (`other` stands for objects and
non-empty strings, which are truthy; validation rejects it for the two
flag signals before any truthiness test). -/
def truthy : JSValue → Bool
  | .undef => false
  | .null => false
  | .num (.fin q) => decide (q ≠ 0)
  | .num .pinf => true
  | .num .ninf => true
  | .num .nan => false
  | .boolean b => b
  | .other => true

/-- JavaScript `ToNumber` coercion, used when a value participates in
arithmetic or a numeric comparison.  After validation every signal used in
arithmetic is already a number, so only the `num` case is ever exercised
by the classifier. -/
def toNumber : JSValue → JSNum
  | .undef => .nan
  | .null => .fin 0
  | .num n => n
  | .boolean b => .fin (if b then 1 else 0)
  | .other => .nan

/-- `typeof v === 'number'`. -/
def typeofNumber : JSValue → Bool
  | .num _ => true
  | _ => false

/-- `typeof v === 'boolean'`. -/
def typeofBoolean : JSValue → Bool
  | .boolean _ => true
  | _ => false

/-- The sixteen required signal keys of the classifier. -/
inductive SignalKey where
  | designer_story_engagement
  | craftsmanship_content_focus
  | heritage_content_time
  | multi_room_navigation
  | complete_project_interest
  | budget_premium_indicators
  | clean_aesthetic_preference
  | integration_content_focus
  | contemporary_browsing_pattern
  | commercial_scale_indicators
  | durability_specs_interest
  | technical_documentation_focus
  | session_duration
  | page_depth
  | product_interaction_quality
  | return_visitor_pattern
deriving DecidableEq, Repr, Fintype

/-- A signal vector: the JavaScript object handed to
`validateSegmentClassification`, viewed at the sixteen required keys
(extra keys are never read by the classifier). -/
def Signals : Type := SignalKey → JSValue

/-- The `requiredSignals` array, in source order. -/
def requiredSignals : List SignalKey :=
  [.designer_story_engagement, .craftsmanship_content_focus, .heritage_content_time,
   .multi_room_navigation, .complete_project_interest, .budget_premium_indicators,
   .clean_aesthetic_preference, .integration_content_focus, .contemporary_browsing_pattern,
   .commercial_scale_indicators, .durability_specs_interest, .technical_documentation_focus,
   .session_duration, .page_depth, .product_interaction_quality, .return_visitor_pattern]

/-- `signals[signal] === undefined || signals[signal] === null`. -/
def isMissing : JSValue → Bool
  | .undef => true
  | .null => true
  | _ => false

/-- `requiredSignals.filter(signal => signals[signal] === undefined || signals[signal] === null)`. -/
def missingSignals (signals : Signals) : List SignalKey :=
  requiredSignals.filter (fun k => isMissing (signals k))

/-- Whether a key is one of the two boolean-like flag signals
(`multi_room_navigation`, `return_visitor_pattern`), which validation
treats specially. -/
def isFlagSignal : SignalKey → Bool
  | .multi_room_navigation => true
  | .return_visitor_pattern => true
  | _ => false

/-- The per-signal type check of the validation loop: a flag signal must
be a boolean or a number; every other signal must satisfy
`typeof value === 'number' && !isNaN(value)`. -/
def signalTypeOk (k : SignalKey) (v : JSValue) : Bool :=
  if isFlagSignal k then typeofBoolean v || typeofNumber v
  else typeofNumber v && !jsIsNaN (toNumber v)

/-- The four customer segments of the catalog. -/
inductive SegmentId where
  | italian_heritage_advocate
  | luxury_project_planner
  | international_minimalist
  | hospitality_professional
deriving DecidableEq, Repr, Fintype

/-- The JavaScript string id of a segment. -/
def SegmentId.key : SegmentId → String
  | .italian_heritage_advocate => "italian_heritage_advocate"
  | .luxury_project_planner => "luxury_project_planner"
  | .international_minimalist => "international_minimalist"
  | .hospitality_professional => "hospitality_professional"

/-- The `thresholds` record of a catalog segment. -/
structure Thresholds where
  engagement : ℚ
  confidence : ℚ
  priority : ℚ
deriving DecidableEq, Repr

/-- The `customerSegments` catalog (thresholds part; the descriptive
fields are never used in computation). -/
def customerSegments : SegmentId → Thresholds
  | .italian_heritage_advocate => ⟨0.7, 0.75, 0.8⟩
  | .luxury_project_planner => ⟨0.8, 0.85, 0.9⟩
  | .international_minimalist => ⟨0.6, 0.7, 0.65⟩
  | .hospitality_professional => ⟨0.75, 0.8, 0.85⟩

/-- Catalog declaration order of the four segments, which is also the
insertion order of the keys of the probabilities object. -/
def segmentOrder : List SegmentId :=
  [.italian_heritage_advocate, .luxury_project_planner,
   .international_minimalist, .hospitality_professional]

/-- Position of a segment in catalog declaration order. -/
def segIdx : SegmentId → Nat
  | .italian_heritage_advocate => 0
  | .luxury_project_planner => 1
  | .international_minimalist => 2
  | .hospitality_professional => 3

/-- The object returned by `calculateSegmentProbabilities`: one
probability per segment, keys in catalog order. -/
structure SegmentProbs where
  italian_heritage_advocate : JSNum
  luxury_project_planner : JSNum
  international_minimalist : JSNum
  hospitality_professional : JSNum
deriving DecidableEq, Repr

/-- Property access `probabilities[segmentId]`. -/
def SegmentProbs.get (p : SegmentProbs) : SegmentId → JSNum
  | .italian_heritage_advocate => p.italian_heritage_advocate
  | .luxury_project_planner => p.luxury_project_planner
  | .international_minimalist => p.international_minimalist
  | .hospitality_professional => p.hospitality_professional

/-- `Object.entries(probabilities)`, in insertion order. -/
def SegmentProbs.entries (p : SegmentProbs) : List (SegmentId × JSNum) :=
  [(.italian_heritage_advocate, p.italian_heritage_advocate),
   (.luxury_project_planner, p.luxury_project_planner),
   (.international_minimalist, p.international_minimalist),
   (.hospitality_professional, p.hospitality_professional)]

/-- `Math.min(Math.max(x, 0), 1)`, the clamp applied to every raw score. -/
def clamp01 (x : JSNum) : JSNum :=
  jsMin (jsMax x (.fin 0)) (.fin 1)

/-- `calculateSegmentProbabilities(signals)`. -/
def calculateSegmentProbabilities (signals : Signals) : SegmentProbs :=
  let heritageScore :=
    jsAdd (jsAdd
      (jsMul (toNumber (signals .designer_story_engagement)) (.fin 0.4))
      (jsMul (toNumber (signals .craftsmanship_content_focus)) (.fin 0.3)))
      (jsMul (jsMin (jsDiv (toNumber (signals .heritage_content_time)) (.fin 120)) (.fin 1)) (.fin 0.3))
  let plannerScore :=
    jsAdd (jsAdd
      (jsMul (if truthy (signals .multi_room_navigation) then .fin 1 else .fin 0) (.fin 0.35))
      (jsMul (toNumber (signals .complete_project_interest)) (.fin 0.35)))
      (jsMul (toNumber (signals .budget_premium_indicators)) (.fin 0.3))
  let minimalistScore :=
    jsAdd (jsAdd
      (jsMul (toNumber (signals .clean_aesthetic_preference)) (.fin 0.4))
      (jsMul (toNumber (signals .integration_content_focus)) (.fin 0.35)))
      (jsMul (toNumber (signals .contemporary_browsing_pattern)) (.fin 0.25))
  let hospitalityScore :=
    jsAdd (jsAdd
      (jsMul (toNumber (signals .commercial_scale_indicators)) (.fin 0.4))
      (jsMul (toNumber (signals .durability_specs_interest)) (.fin 0.3)))
      (jsMul (toNumber (signals .technical_documentation_focus)) (.fin 0.3))
  { italian_heritage_advocate := clamp01 heritageScore
    luxury_project_planner := clamp01 plannerScore
    international_minimalist := clamp01 minimalistScore
    hospitality_professional := clamp01 hospitalityScore }

/-- `selectPrimarySegment(probabilities)`: fold over `Object.entries` of
the probabilities with `maxScore` starting at `0` and `primarySegment`
starting at `'international_minimalist'`; an entry takes over when its
probability is `>=` its segment's confidence threshold and `>` the
current `maxScore`. -/
def selectPrimarySegment (probabilities : SegmentProbs) : SegmentId :=
  (probabilities.entries.foldl
    (fun acc e =>
      if jsGe e.2 (.fin (customerSegments e.1).confidence) && jsGt e.2 acc.1
      then (e.2, e.1) else acc)
    ((.fin 0 : JSNum), SegmentId.international_minimalist)).2

/-- `identifyClassificationFactors(signals, primarySegment)`. -/
def identifyClassificationFactors (signals : Signals) (primarySegment : SegmentId) : List String :=
  let threshold : JSNum := .fin 0.6
  match primarySegment with
  | .italian_heritage_advocate =>
      (if jsGt (toNumber (signals .designer_story_engagement)) threshold
       then ["High designer story engagement"] else []) ++
      (if jsGt (toNumber (signals .craftsmanship_content_focus)) threshold
       then ["Strong craftsmanship interest"] else []) ++
      (if jsGt (toNumber (signals .heritage_content_time)) (.fin 90)
       then ["Extended heritage content consumption"] else [])
  | .luxury_project_planner =>
      (if truthy (signals .multi_room_navigation)
       then ["Multi-room project exploration"] else []) ++
      (if jsGt (toNumber (signals .complete_project_interest)) threshold
       then ["Complete project interest signals"] else []) ++
      (if jsGt (toNumber (signals .budget_premium_indicators)) threshold
       then ["Premium budget indicators"] else [])
  | .international_minimalist =>
      (if jsGt (toNumber (signals .clean_aesthetic_preference)) threshold
       then ["Clean aesthetic preference"] else []) ++
      (if jsGt (toNumber (signals .integration_content_focus)) threshold
       then ["Integration-focused browsing"] else []) ++
      (if jsGt (toNumber (signals .contemporary_browsing_pattern)) threshold
       then ["Contemporary design pattern"] else [])
  | .hospitality_professional =>
      (if jsGt (toNumber (signals .commercial_scale_indicators)) threshold
       then ["Commercial scale indicators"] else []) ++
      (if jsGt (toNumber (signals .durability_specs_interest)) threshold
       then ["Technical specification focus"] else []) ++
      (if jsGt (toNumber (signals .technical_documentation_focus)) threshold
       then ["Professional documentation interest"] else [])

/-- `selectContentAngle(primarySegment)`: string-keyed lookup with the
`|| 'contemporary_integration'` fallback. -/
def selectContentAngle (primarySegment : String) : String :=
  if primarySegment = "italian_heritage_advocate" then "italian_heritage"
  else if primarySegment = "luxury_project_planner" then "project_completion"
  else if primarySegment = "international_minimalist" then "contemporary_integration"
  else if primarySegment = "hospitality_professional" then "artisanal_excellence"
  else "contemporary_integration"

/-- The `multipliers[primarySegment] || 1` lookup of
`calculateConsultationReadiness`. -/
def segmentMultipliers (primarySegment : String) : ℚ :=
  if primarySegment = "luxury_project_planner" then 1.5
  else if primarySegment = "hospitality_professional" then 1.3
  else if primarySegment = "italian_heritage_advocate" then 1.1
  else if primarySegment = "international_minimalist" then 0.8
  else 1

/-- The `baseScore` of `calculateConsultationReadiness(signals, ...)`. -/
def consultationBaseScore (signals : Signals) : JSNum :=
  jsAdd (jsAdd (jsAdd
    (jsMul (jsMin (jsDiv (toNumber (signals .session_duration)) (.fin 600)) (.fin 1)) (.fin 0.3))
    (jsMul (jsMin (jsDiv (toNumber (signals .page_depth)) (.fin 10)) (.fin 1)) (.fin 0.2)))
    (jsMul (toNumber (signals .product_interaction_quality)) (.fin 0.3)))
    (if truthy (signals .return_visitor_pattern) then .fin 0.2 else .fin 0)

/-- `calculateConsultationReadiness(signals, primarySegment)` (the
arithmetic body; its `try/catch` cannot fire since the body performs no
throwing operation). -/
def calculateConsultationReadiness (signals : Signals) (primarySegment : String) : JSNum :=
  jsMin (jsMax (jsMul (consultationBaseScore signals) (.fin (segmentMultipliers primarySegment))) (.fin 0)) (.fin 1)

/-- The errors `validateSegmentClassification` can throw:
`"Missing required signals: <keys>"`, `"Signal '<key>' must be ..."`, and
`"Classification confidence calculation failed"`. -/
inductive ClassifyError where
  | missingRequiredSignals (keys : List SignalKey)
  | invalidSignalType (key : SignalKey)
  | confidenceCalculationFailed
deriving DecidableEq, Repr

/-- The classification object returned by `validateSegmentClassification`. -/
structure Classification where
  primary_segment : SegmentId
  confidence_score : JSNum
  segment_probabilities : SegmentProbs
  classification_factors : List String
  recommended_content_angle : String
  consultation_readiness_score : JSNum
deriving DecidableEq, Repr

/-- `validateSegmentClassification(signals)`: the missing-key check, the
per-signal type check (in `requiredSignals` order, throwing at the first
offender), scoring, primary-segment selection, the confidence `NaN` guard
(the `null`/`undefined` arms of that guard cannot fire since the
probabilities object always carries the four keys), and assembly of the
result. -/
def validateSegmentClassification (signals : Signals) : Except ClassifyError Classification :=
  if 0 < (missingSignals signals).length then
    .error (.missingRequiredSignals (missingSignals signals))
  else
    match requiredSignals.find? (fun k => !signalTypeOk k (signals k)) with
    | some k => .error (.invalidSignalType k)
    | none =>
      if jsIsNaN ((calculateSegmentProbabilities signals).get
          (selectPrimarySegment (calculateSegmentProbabilities signals))) then
        .error .confidenceCalculationFailed
      else .ok
        { primary_segment := selectPrimarySegment (calculateSegmentProbabilities signals)
          confidence_score := (calculateSegmentProbabilities signals).get
            (selectPrimarySegment (calculateSegmentProbabilities signals))
          segment_probabilities := calculateSegmentProbabilities signals
          classification_factors := identifyClassificationFactors signals
            (selectPrimarySegment (calculateSegmentProbabilities signals))
          recommended_content_angle := selectContentAngle
            (selectPrimarySegment (calculateSegmentProbabilities signals)).key
          consultation_readiness_score := calculateConsultationReadiness signals
            (selectPrimarySegment (calculateSegmentProbabilities signals)).key }

/-- Both validation stages pass: no missing key, no type-check failure. -/
def passesValidation (signals : Signals) : Bool :=
  (missingSignals signals).isEmpty &&
    (requiredSignals.find? (fun k => !signalTypeOk k (signals k))).isNone

/-! Computation lemmas for the JavaScript number operations. -/

@[simp] lemma jsIsNaN_fin (a : ℚ) : jsIsNaN (.fin a) = false := rfl
@[simp] lemma jsIsNaN_nan : jsIsNaN .nan = true := rfl
@[simp] lemma jsIsNaN_pinf : jsIsNaN .pinf = false := rfl
@[simp] lemma jsIsNaN_ninf : jsIsNaN .ninf = false := rfl

@[simp] lemma jsAdd_fin_fin (a b : ℚ) : jsAdd (.fin a) (.fin b) = .fin (a + b) := rfl
@[simp] lemma jsAdd_nan_left (y : JSNum) : jsAdd .nan y = .nan := by cases y <;> rfl
@[simp] lemma jsAdd_nan_right (x : JSNum) : jsAdd x .nan = .nan := by cases x <;> rfl
@[simp] lemma jsAdd_pinf_fin (b : ℚ) : jsAdd .pinf (.fin b) = .pinf := rfl
@[simp] lemma jsAdd_fin_pinf (a : ℚ) : jsAdd (.fin a) .pinf = .pinf := rfl
@[simp] lemma jsAdd_ninf_fin (b : ℚ) : jsAdd .ninf (.fin b) = .ninf := rfl
@[simp] lemma jsAdd_fin_ninf (a : ℚ) : jsAdd (.fin a) .ninf = .ninf := rfl
@[simp] lemma jsAdd_pinf_ninf : jsAdd .pinf .ninf = .nan := rfl
@[simp] lemma jsAdd_ninf_pinf : jsAdd .ninf .pinf = .nan := rfl

@[simp] lemma jsMul_fin_fin (a b : ℚ) : jsMul (.fin a) (.fin b) = .fin (a * b) := rfl
@[simp] lemma jsMul_nan_left (y : JSNum) : jsMul .nan y = .nan := by cases y <;> rfl
@[simp] lemma jsMul_nan_right (x : JSNum) : jsMul x .nan = .nan := by cases x <;> rfl
lemma jsMul_pinf_fin_pos {b : ℚ} (h : 0 < b) : jsMul .pinf (.fin b) = .pinf := by
  simp [jsMul, h, h.ne']
lemma jsMul_ninf_fin_pos {b : ℚ} (h : 0 < b) : jsMul .ninf (.fin b) = .ninf := by
  simp [jsMul, h, h.ne']

@[simp] lemma jsDiv_fin_fin {b : ℚ} (a : ℚ) (h : b ≠ 0) :
    jsDiv (.fin a) (.fin b) = .fin (a / b) := by simp [jsDiv, h]
lemma jsDiv_pinf_fin_pos {b : ℚ} (h : 0 < b) : jsDiv .pinf (.fin b) = .pinf := by
  simp [jsDiv, not_lt.mpr h.le]
lemma jsDiv_ninf_fin_pos {b : ℚ} (h : 0 < b) : jsDiv .ninf (.fin b) = .ninf := by
  simp [jsDiv, not_lt.mpr h.le]

@[simp] lemma jsMin_fin_fin (a b : ℚ) : jsMin (.fin a) (.fin b) = .fin (min a b) := rfl
@[simp] lemma jsMin_nan_left (y : JSNum) : jsMin .nan y = .nan := by cases y <;> rfl
@[simp] lemma jsMin_nan_right (x : JSNum) : jsMin x .nan = .nan := by cases x <;> rfl
@[simp] lemma jsMin_pinf_fin (b : ℚ) : jsMin .pinf (.fin b) = .fin b := rfl
@[simp] lemma jsMin_fin_pinf (a : ℚ) : jsMin (.fin a) .pinf = .fin a := rfl
@[simp] lemma jsMin_ninf_fin (b : ℚ) : jsMin .ninf (.fin b) = .ninf := rfl
@[simp] lemma jsMin_fin_ninf (a : ℚ) : jsMin (.fin a) .ninf = .ninf := rfl

@[simp] lemma jsMax_fin_fin (a b : ℚ) : jsMax (.fin a) (.fin b) = .fin (max a b) := rfl
@[simp] lemma jsMax_nan_left (y : JSNum) : jsMax .nan y = .nan := by cases y <;> rfl
@[simp] lemma jsMax_nan_right (x : JSNum) : jsMax x .nan = .nan := by cases x <;> rfl
@[simp] lemma jsMax_pinf_fin (b : ℚ) : jsMax .pinf (.fin b) = .pinf := rfl
@[simp] lemma jsMax_fin_pinf (a : ℚ) : jsMax (.fin a) .pinf = .pinf := rfl
@[simp] lemma jsMax_ninf_fin (b : ℚ) : jsMax .ninf (.fin b) = .fin b := rfl
@[simp] lemma jsMax_fin_ninf (a : ℚ) : jsMax (.fin a) .ninf = .fin a := rfl

@[simp] lemma jsGt_fin_fin (a b : ℚ) : jsGt (.fin a) (.fin b) = decide (b < a) := rfl
@[simp] lemma jsGt_nan_left (y : JSNum) : jsGt .nan y = false := by cases y <;> rfl
@[simp] lemma jsGt_nan_right (x : JSNum) : jsGt x .nan = false := by cases x <;> rfl
@[simp] lemma jsGt_pinf_fin (b : ℚ) : jsGt .pinf (.fin b) = true := rfl
@[simp] lemma jsGt_fin_pinf (a : ℚ) : jsGt (.fin a) .pinf = false := rfl
@[simp] lemma jsGt_ninf_fin (b : ℚ) : jsGt .ninf (.fin b) = false := rfl
@[simp] lemma jsGt_fin_ninf (a : ℚ) : jsGt (.fin a) .ninf = true := rfl

@[simp] lemma jsGe_fin_fin (a b : ℚ) : jsGe (.fin a) (.fin b) = decide (b ≤ a) := rfl
@[simp] lemma jsGe_nan_left (y : JSNum) : jsGe .nan y = false := by cases y <;> rfl
@[simp] lemma jsGe_nan_right (x : JSNum) : jsGe x .nan = false := by cases x <;> rfl
@[simp] lemma jsGe_pinf_fin (b : ℚ) : jsGe .pinf (.fin b) = true := rfl
@[simp] lemma jsGe_fin_pinf (a : ℚ) : jsGe (.fin a) .pinf = false := rfl
@[simp] lemma jsGe_ninf_fin (b : ℚ) : jsGe .ninf (.fin b) = false := rfl
@[simp] lemma jsGe_fin_ninf (a : ℚ) : jsGe (.fin a) .ninf = true := rfl

/-- Every clamped score is either `NaN` or a finite value in `[0, 1]`. -/
lemma clamp01_cases (x : JSNum) :
    clamp01 x = .nan ∨ ∃ q : ℚ, clamp01 x = .fin q ∧ 0 ≤ q ∧ q ≤ 1 := by
  cases x with
  | nan => exact Or.inl rfl
  | pinf => exact Or.inr ⟨1, rfl, by norm_num⟩
  | ninf =>
      refine Or.inr ⟨0, ?_, by norm_num⟩
      simp [clamp01]
  | fin q =>
      refine Or.inr ⟨min (max q 0) 1, by simp [clamp01], ?_, ?_⟩
      · exact le_min (le_max_right q 0) zero_le_one
      · exact min_le_right _ _

/-- Clamping a finite value gives the finite clamped value. -/
lemma clamp01_fin (q : ℚ) : clamp01 (.fin q) = .fin (min (max q 0) 1) := by
  simp [clamp01]

/-! Characterization of `selectPrimarySegment`. -/

/-- A segment is eligible when its probability passes its own confidence
threshold under the JavaScript `>=`. -/
def eligibleSegment (probs : SegmentProbs) (s : SegmentId) : Bool :=
  jsGe (probs.get s) (.fin (customerSegments s).confidence)

/-- One step of the `selectPrimarySegment` fold. -/
def selStep (probs : SegmentProbs) (acc : JSNum × SegmentId) (s : SegmentId) : JSNum × SegmentId :=
  if eligibleSegment probs s && jsGt (probs.get s) acc.1 then (probs.get s, s) else acc

lemma selectPrimarySegment_eq_foldl (P : SegmentProbs) :
    selectPrimarySegment P =
      (segmentOrder.foldl (selStep P) ((.fin 0 : JSNum), SegmentId.international_minimalist)).2 := by
  simp [selectPrimarySegment, SegmentProbs.entries, segmentOrder, List.foldl, selStep,
    eligibleSegment, SegmentProbs.get]

/-- Every eligible segment of a probability object whose entries are
clamped scores carries a finite probability at or above its threshold. -/
def ElgFin (P : SegmentProbs) : Prop :=
  ∀ s, eligibleSegment P s = true →
    ∃ q : ℚ, P.get s = .fin q ∧ (customerSegments s).confidence ≤ q

/-- Every segment probability is a clamped score. -/
lemma calc_get_clamp (signals : Signals) (s : SegmentId) :
    ∃ x, (calculateSegmentProbabilities signals).get s = clamp01 x := by
  cases s <;> exact ⟨_, rfl⟩

lemma elgFin_calc (signals : Signals) : ElgFin (calculateSegmentProbabilities signals) := by
  intro s hs
  obtain ⟨x, hx⟩ := calc_get_clamp signals s
  rcases clamp01_cases x with hnan | ⟨q, hq, _, _⟩
  · rw [eligibleSegment, hx, hnan] at hs
    simp at hs
  · refine ⟨q, by rw [hx, hq], ?_⟩
    rw [eligibleSegment, hx, hq] at hs
    simpa using hs

lemma confidence_pos (s : SegmentId) : (0 : ℚ) < (customerSegments s).confidence := by
  cases s <;> norm_num [customerSegments]

lemma mem_segmentOrder (s : SegmentId) : s ∈ segmentOrder := by
  cases s <;> simp [segmentOrder]

/-- If no listed segment is eligible, the fold keeps its accumulator. -/
lemma selFold_id (P : SegmentProbs) (L : List SegmentId) (acc : JSNum × SegmentId)
    (h : ∀ s ∈ L, eligibleSegment P s = false) :
    L.foldl (selStep P) acc = acc := by
  induction L generalizing acc with
  | nil => rfl
  | cons s rest ih =>
      have hs : selStep P acc s = acc := by
        simp [selStep, h s (by simp)]
      rw [List.foldl_cons, hs]
      exact ih acc (fun u hu => h u (by simp [hu]))

/-- The fold either keeps its accumulator or returns the probability and
id of some eligible listed segment. -/
lemma selFold_shape (P : SegmentProbs) (L : List SegmentId) (acc : JSNum × SegmentId) :
    L.foldl (selStep P) acc = acc ∨
      ∃ s ∈ L, eligibleSegment P s = true ∧ L.foldl (selStep P) acc = (P.get s, s) := by
  induction L generalizing acc with
  | nil => exact Or.inl rfl
  | cons s rest ih =>
      rw [List.foldl_cons]
      by_cases hcond : (eligibleSegment P s && jsGt (P.get s) acc.1) = true
      · have hel : eligibleSegment P s = true := by
          have h' := hcond
          simp only [Bool.and_eq_true] at h'
          exact h'.1
        have hstep : selStep P acc s = (P.get s, s) := by simp [selStep, hcond]
        rw [hstep]
        rcases ih (P.get s, s) with h1 | ⟨u, hu, heu, hequ⟩
        · exact Or.inr ⟨s, by simp, hel, h1⟩
        · exact Or.inr ⟨u, by simp [hu], heu, hequ⟩
      · have hstep : selStep P acc s = acc := by
          rw [Bool.not_eq_true] at hcond
          simp [selStep, hcond]
        rw [hstep]
        rcases ih acc with h1 | ⟨u, hu, heu, hequ⟩
        · exact Or.inl h1
        · exact Or.inr ⟨u, by simp [hu], heu, hequ⟩

/-- The running maximum is finite and never decreases. -/
lemma selFold_fst_fin (P : SegmentProbs) (hP : ElgFin P) (L : List SegmentId) (m : ℚ)
    (cur : SegmentId) :
    ∃ m' : ℚ, (L.foldl (selStep P) (.fin m, cur)).1 = .fin m' ∧ m ≤ m' := by
  induction L generalizing m cur with
  | nil => exact ⟨m, rfl, le_refl m⟩
  | cons s rest ih =>
      rw [List.foldl_cons]
      by_cases hcond : (eligibleSegment P s && jsGt (P.get s) (.fin m)) = true
      · have h' := hcond
        simp only [Bool.and_eq_true] at h'
        obtain ⟨he, hgt⟩ := h'
        obtain ⟨q, hq, _⟩ := hP s he
        have hmq : m < q := by
          rw [hq] at hgt
          simpa using hgt
        have hstep : selStep P (.fin m, cur) s = (.fin q, s) := by
          unfold selStep
          split
          · rw [hq]
          · rename_i hfalse
            exact absurd hcond hfalse
        rw [hstep]
        obtain ⟨m', h1, h2⟩ := ih q s
        exact ⟨m', h1, le_of_lt (lt_of_lt_of_le hmq h2)⟩
      · have hstep : selStep P (.fin m, cur) s = (.fin m, cur) := by
          unfold selStep
          split
          · rename_i htrue
            exact absurd htrue hcond
          · rfl
        rw [hstep]
        exact ih m cur

/-- No eligible listed segment strictly beats the fold's final maximum. -/
lemma selFold_no_beat (P : SegmentProbs) (hP : ElgFin P) (L : List SegmentId) (m : ℚ)
    (cur : SegmentId) (u : SegmentId) (hu : u ∈ L) (he : eligibleSegment P u = true) :
    jsGt (P.get u) ((L.foldl (selStep P) (.fin m, cur)).1) = false := by
  obtain ⟨q, hq, _⟩ := hP u he
  induction L generalizing m cur with
  | nil => cases hu
  | cons s rest ih =>
      rw [List.foldl_cons]
      by_cases hcond : (eligibleSegment P s && jsGt (P.get s) (.fin m)) = true
      · have h' := hcond
        simp only [Bool.and_eq_true] at h'
        obtain ⟨hes, hgt⟩ := h'
        obtain ⟨qs, hqs, _⟩ := hP s hes
        have hstep : selStep P (.fin m, cur) s = (.fin qs, s) := by
          unfold selStep
          split
          · rw [hqs]
          · rename_i hfalse
            exact absurd hcond hfalse
        rw [hstep]
        rcases List.mem_cons.mp hu with heq | hurest
        · obtain ⟨m', h1, h2⟩ := selFold_fst_fin P hP rest qs s
          rw [h1, hq]
          rw [heq, hqs] at hq
          have hqq : qs = q := by
            injection hq
          simp
          linarith
        · exact ih qs s hurest
      · have hstep : selStep P (.fin m, cur) s = (.fin m, cur) := by
          unfold selStep
          split
          · rename_i htrue
            exact absurd htrue hcond
          · rfl
        rw [hstep]
        rcases List.mem_cons.mp hu with heq | hurest
        · have hno : jsGt (P.get u) (.fin m) = false := by
            rw [Bool.not_eq_true] at hcond
            rw [← heq] at hcond
            simpa [he] using hcond
          obtain ⟨m', h1, h2⟩ := selFold_fst_fin P hP rest m cur
          rw [h1, hq]
          rw [hq] at hno
          simp at hno ⊢
          linarith
        · exact ih m cur hurest

/-- If some listed segment is eligible and beats the starting maximum,
the fold returns the probability and id of an eligible listed segment. -/
lemma selFold_update (P : SegmentProbs) (L : List SegmentId) (m : ℚ) (cur : SegmentId)
    (u : SegmentId) (hu : u ∈ L) (he : eligibleSegment P u = true)
    (hgt : jsGt (P.get u) (.fin m) = true) :
    ∃ s ∈ L, eligibleSegment P s = true ∧
      L.foldl (selStep P) (.fin m, cur) = (P.get s, s) := by
  induction L generalizing m cur with
  | nil => cases hu
  | cons s rest ih =>
      rw [List.foldl_cons]
      by_cases hcond : (eligibleSegment P s && jsGt (P.get s) (.fin m)) = true
      · have hel : eligibleSegment P s = true := by
          have h' := hcond
          simp only [Bool.and_eq_true] at h'
          exact h'.1
        have hstep : selStep P (.fin m, cur) s = (P.get s, s) := by
          unfold selStep
          split
          · rfl
          · rename_i hfalse
            exact absurd hcond hfalse
        rw [hstep]
        rcases selFold_shape P rest (P.get s, s) with h1 | ⟨w, hw, hew, heqw⟩
        · exact ⟨s, by simp, hel, h1⟩
        · exact ⟨w, by simp [hw], hew, heqw⟩
      · have hstep : selStep P (.fin m, cur) s = (.fin m, cur) := by
          unfold selStep
          split
          · rename_i htrue
            exact absurd htrue hcond
          · rfl
        rw [hstep]
        rcases List.mem_cons.mp hu with heq | hurest
        · exfalso
          rw [Bool.not_eq_true] at hcond
          rw [← heq] at hcond
          rw [he, hgt] at hcond
          simp at hcond
        · obtain ⟨w, hw, hew, heqw⟩ := ih m cur hurest hgt
          exact ⟨w, by simp [hw], hew, heqw⟩

/-- With no eligible segment, the fold keeps the default accumulator, so
the primary segment falls back to `international_minimalist`. -/
lemma select_default (P : SegmentProbs) (h : ∀ s, eligibleSegment P s = false) :
    selectPrimarySegment P = .international_minimalist := by
  rw [selectPrimarySegment_eq_foldl, selFold_id P segmentOrder _ (fun s _ => h s)]

/-- With at least one eligible segment, the selected segment is eligible
and no eligible segment has a strictly greater probability. -/
lemma select_eligible_max (P : SegmentProbs) (hP : ElgFin P) (s : SegmentId)
    (hs : eligibleSegment P s = true) :
    eligibleSegment P (selectPrimarySegment P) = true ∧
      jsGt (P.get s) (P.get (selectPrimarySegment P)) = false := by
  obtain ⟨q, hq, hthr⟩ := hP s hs
  have h0 : jsGt (P.get s) (.fin 0) = true := by
    rw [hq]
    simp
    linarith [confidence_pos s]
  obtain ⟨w, hw, hew, heqw⟩ :=
    selFold_update P segmentOrder 0 .international_minimalist s (mem_segmentOrder s) hs h0
  have hsel : selectPrimarySegment P = w := by
    rw [selectPrimarySegment_eq_foldl, heqw]
  have hfst : (segmentOrder.foldl (selStep P)
      ((.fin 0 : JSNum), SegmentId.international_minimalist)).1 = P.get w := by
    rw [heqw]
  constructor
  · rw [hsel]
    exact hew
  · have hnb := selFold_no_beat P hP segmentOrder 0 .international_minimalist s
      (mem_segmentOrder s) hs
    rw [hfst] at hnb
    rw [hsel]
    exact hnb

/-- Tie-break: the selected segment strictly beats every eligible segment
declared before it. -/
lemma select_tie_general (P : SegmentProbs) (hP : ElgFin P)
    (pre post : List SegmentId) (prim : SegmentId)
    (hsplit : segmentOrder = pre ++ prim :: post)
    (hpre : prim ∉ pre) (hpost : prim ∉ post)
    (hprim : selectPrimarySegment P = prim)
    (s : SegmentId) (hs : s ∈ pre) (he : eligibleSegment P s = true) :
    jsGt (P.get prim) (P.get s) = true := by
  obtain ⟨qs, hqs, hthr⟩ := hP s he
  have h0s : jsGt (P.get s) (.fin 0) = true := by
    rw [hqs]
    simp
    linarith [confidence_pos s]
  set A := pre.foldl (selStep P) ((.fin 0 : JSNum), SegmentId.international_minimalist) with hA
  obtain ⟨mA, hmA, hmA0⟩ := selFold_fst_fin P hP pre 0 .international_minimalist
  have hfold : selectPrimarySegment P = (post.foldl (selStep P) (selStep P A prim)).2 := by
    rw [selectPrimarySegment_eq_foldl, hsplit, List.foldl_append, List.foldl_cons]
  by_cases hcond : (eligibleSegment P prim && jsGt (P.get prim) A.1) = true
  · have h' := hcond
    simp only [Bool.and_eq_true] at h'
    obtain ⟨hep, hgtp⟩ := h'
    obtain ⟨qp, hqp, _⟩ := hP prim hep
    have hnb := selFold_no_beat P hP pre 0 .international_minimalist s hs he
    rw [← hA] at hnb hmA
    rw [hmA, hqs] at hnb
    rw [hmA, hqp] at hgtp
    rw [hqp, hqs]
    simp at hnb hgtp ⊢
    linarith
  · exfalso
    have hstep : selStep P A prim = A := by
      unfold selStep
      split
      · rename_i htrue
        exact absurd htrue hcond
      · rfl
    rw [hstep] at hfold
    obtain ⟨w, hw, hew, heqw⟩ := selFold_update P pre 0 .international_minimalist s hs he h0s
    rw [← hA] at heqw
    rcases selFold_shape P post A with hkeepA | ⟨v, hv, hev, heqv⟩
    · rw [hkeepA] at hfold
      rw [heqw] at hfold
      rw [hprim] at hfold
      exact hpre (hfold ▸ hw)
    · rw [heqv] at hfold
      rw [hprim] at hfold
      exact hpost (hfold ▸ hv)

/-- Sample signal vector: the spec's strong-heritage scenario. -/
def sampleHeritageSignals : Signals := fun k =>
  match k with
  | .designer_story_engagement => .num (.fin 1)
  | .craftsmanship_content_focus => .num (.fin 1)
  | .heritage_content_time => .num (.fin 240)
  | .multi_room_navigation => .boolean false
  | .return_visitor_pattern => .boolean false
  | _ => .num (.fin 0)

/-- Claim C1: for every signal vector passing input validation, the
primary segment is selected by iterating the four segments in
catalog-declared order; a segment is eligible only if its probability is
`>=` its own catalog confidence threshold (0.75, 0.85, 0.7, 0.8
respectively); among eligible segments the one with the strictly greatest
probability is chosen, the first-declared segment winning an exact tie;
if no segment is eligible the primary segment is
`international_minimalist`. -/
theorem C1_primary_segment_selection (signals : Signals)
    (hval : passesValidation signals = true) :
    ((customerSegments SegmentId.italian_heritage_advocate).confidence = 0.75
      ∧ (customerSegments SegmentId.luxury_project_planner).confidence = 0.85
      ∧ (customerSegments SegmentId.international_minimalist).confidence = 0.7
      ∧ (customerSegments SegmentId.hospitality_professional).confidence = 0.8)
    ∧ ((∀ s, eligibleSegment (calculateSegmentProbabilities signals) s = false) →
        selectPrimarySegment (calculateSegmentProbabilities signals) =
          SegmentId.international_minimalist)
    ∧ (∀ s, eligibleSegment (calculateSegmentProbabilities signals) s = true →
        eligibleSegment (calculateSegmentProbabilities signals)
            (selectPrimarySegment (calculateSegmentProbabilities signals)) = true
        ∧ jsGt ((calculateSegmentProbabilities signals).get s)
            ((calculateSegmentProbabilities signals).get
              (selectPrimarySegment (calculateSegmentProbabilities signals))) = false
        ∧ (segIdx s < segIdx (selectPrimarySegment (calculateSegmentProbabilities signals)) →
            jsGt ((calculateSegmentProbabilities signals).get
                (selectPrimarySegment (calculateSegmentProbabilities signals)))
              ((calculateSegmentProbabilities signals).get s) = true)) := by
  have hP := elgFin_calc signals
  refine ⟨⟨rfl, rfl, rfl, rfl⟩, select_default _, fun s hs => ?_⟩
  have hmax := select_eligible_max (calculateSegmentProbabilities signals) hP s hs
  refine ⟨hmax.1, hmax.2, fun hidx => ?_⟩
  cases hsel : selectPrimarySegment (calculateSegmentProbabilities signals) with
  | italian_heritage_advocate =>
      rw [hsel] at hidx
      cases s <;> simp [segIdx] at hidx
  | luxury_project_planner =>
      rw [hsel] at hidx
      cases s with
      | italian_heritage_advocate =>
          exact select_tie_general _ hP [.italian_heritage_advocate]
            [.international_minimalist, .hospitality_professional] _ rfl
            (by decide) (by decide) hsel _ (by decide) hs
      | luxury_project_planner => simp [segIdx] at hidx
      | international_minimalist => simp [segIdx] at hidx
      | hospitality_professional => simp [segIdx] at hidx
  | international_minimalist =>
      rw [hsel] at hidx
      cases s with
      | italian_heritage_advocate =>
          exact select_tie_general _ hP
            [.italian_heritage_advocate, .luxury_project_planner]
            [.hospitality_professional] _ rfl
            (by decide) (by decide) hsel _ (by decide) hs
      | luxury_project_planner =>
          exact select_tie_general _ hP
            [.italian_heritage_advocate, .luxury_project_planner]
            [.hospitality_professional] _ rfl
            (by decide) (by decide) hsel _ (by decide) hs
      | international_minimalist => simp [segIdx] at hidx
      | hospitality_professional => simp [segIdx] at hidx
  | hospitality_professional =>
      rw [hsel] at hidx
      cases s with
      | italian_heritage_advocate =>
          exact select_tie_general _ hP
            [.italian_heritage_advocate, .luxury_project_planner,
              .international_minimalist] [] _ rfl
            (by decide) (by decide) hsel _ (by decide) hs
      | luxury_project_planner =>
          exact select_tie_general _ hP
            [.italian_heritage_advocate, .luxury_project_planner,
              .international_minimalist] [] _ rfl
            (by decide) (by decide) hsel _ (by decide) hs
      | international_minimalist =>
          exact select_tie_general _ hP
            [.italian_heritage_advocate, .luxury_project_planner,
              .international_minimalist] [] _ rfl
            (by decide) (by decide) hsel _ (by decide) hs
      | hospitality_professional => simp [segIdx] at hidx

/-- Witness for C1 at the concrete heritage sample vector. -/
theorem C1_primary_segment_selection_witness :
    passesValidation sampleHeritageSignals = true ∧
    (((customerSegments SegmentId.italian_heritage_advocate).confidence = 0.75
      ∧ (customerSegments SegmentId.luxury_project_planner).confidence = 0.85
      ∧ (customerSegments SegmentId.international_minimalist).confidence = 0.7
      ∧ (customerSegments SegmentId.hospitality_professional).confidence = 0.8)
    ∧ ((∀ s, eligibleSegment (calculateSegmentProbabilities sampleHeritageSignals) s = false) →
        selectPrimarySegment (calculateSegmentProbabilities sampleHeritageSignals) =
          SegmentId.international_minimalist)
    ∧ (∀ s, eligibleSegment (calculateSegmentProbabilities sampleHeritageSignals) s = true →
        eligibleSegment (calculateSegmentProbabilities sampleHeritageSignals)
            (selectPrimarySegment (calculateSegmentProbabilities sampleHeritageSignals)) = true
        ∧ jsGt ((calculateSegmentProbabilities sampleHeritageSignals).get s)
            ((calculateSegmentProbabilities sampleHeritageSignals).get
              (selectPrimarySegment (calculateSegmentProbabilities sampleHeritageSignals))) = false
        ∧ (segIdx s <
              segIdx (selectPrimarySegment (calculateSegmentProbabilities sampleHeritageSignals)) →
            jsGt ((calculateSegmentProbabilities sampleHeritageSignals).get
                (selectPrimarySegment (calculateSegmentProbabilities sampleHeritageSignals)))
              ((calculateSegmentProbabilities sampleHeritageSignals).get s) = true))) :=
  ⟨by decide, C1_primary_segment_selection sampleHeritageSignals (by decide)⟩

/-- Signal vector with `+Infinity` and `-Infinity` heritage signals and
zeros elsewhere; it passes the classifier's validation because `Infinity`
is a non-`NaN` number. -/
def infinityMixSignals : Signals := fun k =>
  match k with
  | .designer_story_engagement => .num .pinf
  | .craftsmanship_content_focus => .num .ninf
  | .multi_room_navigation => .boolean false
  | .return_visitor_pattern => .boolean false
  | _ => .num (.fin 0)

/-- Counterexample to C2: a vector that passes input validation whose
heritage probability is `NaN`, hence not in `[0, 1]`. -/
theorem C2_counterexample :
    passesValidation infinityMixSignals = true ∧
    (calculateSegmentProbabilities infinityMixSignals).italian_heritage_advocate = JSNum.nan ∧
    ¬ ∃ p : ℚ, (calculateSegmentProbabilities infinityMixSignals).italian_heritage_advocate
        = .fin p ∧ 0 ≤ p ∧ p ≤ 1 := by
  have h1 : (calculateSegmentProbabilities infinityMixSignals).italian_heritage_advocate
      = JSNum.nan := by
    norm_num [calculateSegmentProbabilities, infinityMixSignals, toNumber, clamp01,
      jsMul, jsAdd, jsDiv, jsMin, jsMax]
  refine ⟨by decide, h1, ?_⟩
  rintro ⟨p, hp, _⟩
  rw [h1] at hp
  cases hp

/-- Claim C2 (amended): for every signal vector passing input validation
in which every non-flag signal is a finite number, the four segment
probabilities equal the fixed weighted linear scores clamped to `[0, 1]`,
and consequently each probability lies in `[0, 1]`.  (The original claim
omits the finiteness condition; validation admits `±Infinity`, which can
make a probability `NaN`, as `C2_counterexample` shows.) -/
theorem C2_segment_probability_formulas (signals : Signals) (q : SignalKey → ℚ)
    (hval : passesValidation signals = true)
    (hfin : ∀ k, isFlagSignal k = false → signals k = .num (.fin (q k))) :
    calculateSegmentProbabilities signals =
      { italian_heritage_advocate := .fin (min (max
            (0.4 * q .designer_story_engagement + 0.3 * q .craftsmanship_content_focus
              + 0.3 * min (q .heritage_content_time / 120) 1) 0) 1)
        luxury_project_planner := .fin (min (max
            (0.35 * (if truthy (signals .multi_room_navigation) then (1 : ℚ) else 0)
              + 0.35 * q .complete_project_interest
              + 0.3 * q .budget_premium_indicators) 0) 1)
        international_minimalist := .fin (min (max
            (0.4 * q .clean_aesthetic_preference + 0.35 * q .integration_content_focus
              + 0.25 * q .contemporary_browsing_pattern) 0) 1)
        hospitality_professional := .fin (min (max
            (0.4 * q .commercial_scale_indicators + 0.3 * q .durability_specs_interest
              + 0.3 * q .technical_documentation_focus) 0) 1) }
    ∧ ∀ s, ∃ p : ℚ, (calculateSegmentProbabilities signals).get s = .fin p
        ∧ 0 ≤ p ∧ p ≤ 1 := by
  have h1 := hfin .designer_story_engagement rfl
  have h2 := hfin .craftsmanship_content_focus rfl
  have h3 := hfin .heritage_content_time rfl
  have h4 := hfin .complete_project_interest rfl
  have h5 := hfin .budget_premium_indicators rfl
  have h6 := hfin .clean_aesthetic_preference rfl
  have h7 := hfin .integration_content_focus rfl
  have h8 := hfin .contemporary_browsing_pattern rfl
  have h9 := hfin .commercial_scale_indicators rfl
  have h10 := hfin .durability_specs_interest rfl
  have h11 := hfin .technical_documentation_focus rfl
  have heq : calculateSegmentProbabilities signals =
      { italian_heritage_advocate := .fin (min (max
            (0.4 * q .designer_story_engagement + 0.3 * q .craftsmanship_content_focus
              + 0.3 * min (q .heritage_content_time / 120) 1) 0) 1)
        luxury_project_planner := .fin (min (max
            (0.35 * (if truthy (signals .multi_room_navigation) then (1 : ℚ) else 0)
              + 0.35 * q .complete_project_interest
              + 0.3 * q .budget_premium_indicators) 0) 1)
        international_minimalist := .fin (min (max
            (0.4 * q .clean_aesthetic_preference + 0.35 * q .integration_content_focus
              + 0.25 * q .contemporary_browsing_pattern) 0) 1)
        hospitality_professional := .fin (min (max
            (0.4 * q .commercial_scale_indicators + 0.3 * q .durability_specs_interest
              + 0.3 * q .technical_documentation_focus) 0) 1) } := by
    simp only [calculateSegmentProbabilities, h1, h2, h3, h4, h5, h6, h7, h8, h9, h10, h11,
      toNumber, jsMul_fin_fin, jsAdd_fin_fin, jsMin_fin_fin, clamp01_fin,
      jsDiv_fin_fin _ (by norm_num : (120 : ℚ) ≠ 0), SegmentProbs.mk.injEq, JSNum.fin.injEq]
    refine ⟨?_, ?_, ?_, ?_⟩
    · have hcomm : ∀ a b c : ℚ, a * 0.4 + b * 0.3 + min (c / 120) 1 * 0.3
          = 0.4 * a + 0.3 * b + 0.3 * min (c / 120) 1 := by
        intro a b c
        ring
      rw [hcomm]
    · by_cases hb : truthy (signals .multi_room_navigation) = true
      · simp only [hb, if_true, jsMul_fin_fin, jsAdd_fin_fin, clamp01_fin, JSNum.fin.injEq]
        ring_nf
      · simp only [Bool.not_eq_true] at hb
        simp only [hb, Bool.false_eq_true, if_false, jsMul_fin_fin, jsAdd_fin_fin, clamp01_fin,
          JSNum.fin.injEq]
        ring_nf
    · ring_nf
    · ring_nf
  refine ⟨heq, fun s => ?_⟩
  rw [heq]
  cases s <;>
    exact ⟨_, rfl, le_min (le_max_right _ _) zero_le_one, min_le_right _ _⟩

/-- The rational values carried by `sampleHeritageSignals` at non-flag keys. -/
def sampleHeritageValues : SignalKey → ℚ := fun k =>
  match k with
  | .designer_story_engagement => 1
  | .craftsmanship_content_focus => 1
  | .heritage_content_time => 240
  | _ => 0

/-- Witness for the amended C2 at the concrete heritage sample vector. -/
theorem C2_segment_probability_formulas_witness :
    (passesValidation sampleHeritageSignals = true
      ∧ ∀ k, isFlagSignal k = false →
          sampleHeritageSignals k = .num (.fin (sampleHeritageValues k)))
    ∧ ∀ s, ∃ p : ℚ, (calculateSegmentProbabilities sampleHeritageSignals).get s = .fin p
        ∧ 0 ≤ p ∧ p ≤ 1 :=
  ⟨⟨by decide, by decide⟩,
    (C2_segment_probability_formulas sampleHeritageSignals sampleHeritageValues
      (by decide) (by decide)).2⟩

/-- A value is counted missing exactly when it is `undefined` or `null`. -/
lemma isMissing_iff (v : JSValue) : isMissing v = true ↔ v = .undef ∨ v = .null := by
  cases v <;> simp [isMissing]

lemma mem_requiredSignals (k : SignalKey) : k ∈ requiredSignals := by
  cases k <;> decide

/-- Claim C3: with at least one of the sixteen required keys missing or
null, classification fails with the missing-signals error naming exactly
the missing keys, and no classification result is produced. -/
theorem C3_missing_keys_error (signals : Signals)
    (h : missingSignals signals ≠ []) :
    validateSegmentClassification signals =
      .error (.missingRequiredSignals (missingSignals signals))
    ∧ ∀ k, k ∈ missingSignals signals ↔ (signals k = .undef ∨ signals k = .null) := by
  refine ⟨?_, fun k => ?_⟩
  · rw [validateSegmentClassification, if_pos (List.length_pos.mpr h)]
  · rw [missingSignals, List.mem_filter]
    simp [mem_requiredSignals k, isMissing_iff]

/-- Sample input with two keys missing (one `undefined`, one `null`). -/
def sampleMissingSignals : Signals := fun k =>
  match k with
  | .designer_story_engagement => .undef
  | .page_depth => .null
  | .multi_room_navigation => .boolean true
  | .return_visitor_pattern => .boolean false
  | _ => .num (.fin 0)

/-- Witness for C3 at a concrete input missing two keys. -/
theorem C3_missing_keys_error_witness :
    missingSignals sampleMissingSignals ≠ [] ∧
    (validateSegmentClassification sampleMissingSignals =
      .error (.missingRequiredSignals (missingSignals sampleMissingSignals))
    ∧ ∀ k, k ∈ missingSignals sampleMissingSignals ↔
        (sampleMissingSignals k = .undef ∨ sampleMissingSignals k = .null)) :=
  ⟨by decide, C3_missing_keys_error sampleMissingSignals (by decide)⟩

/-- Signal vector whose `session_duration` is `+Infinity` and which is
otherwise ordinary. -/
def infiniteDurationSignals : Signals := fun k =>
  match k with
  | .session_duration => .num .pinf
  | .multi_room_navigation => .boolean false
  | .return_visitor_pattern => .boolean false
  | _ => .num (.fin 0)

/-- Counterexample to C4: a required numeric signal is `+Infinity` (not a
finite number), yet classification succeeds instead of failing with an
invalid-input error, because the validation only rejects non-numbers and
`NaN`. -/
theorem C4_counterexample :
    infiniteDurationSignals .session_duration = .num .pinf ∧
    validateSegmentClassification infiniteDurationSignals = .ok
      { primary_segment := .international_minimalist
        confidence_score := .fin 0
        segment_probabilities :=
          { italian_heritage_advocate := .fin 0
            luxury_project_planner := .fin 0
            international_minimalist := .fin 0
            hospitality_professional := .fin 0 }
        classification_factors := []
        recommended_content_angle := "contemporary_integration"
        consultation_readiness_score := .fin 0.24 } := by
  refine ⟨rfl, ?_⟩
  norm_num [validateSegmentClassification, missingSignals, requiredSignals,
    infiniteDurationSignals, isMissing, signalTypeOk, isFlagSignal, typeofNumber,
    typeofBoolean, toNumber, calculateSegmentProbabilities, clamp01, truthy,
    selectPrimarySegment, SegmentProbs.entries, SegmentProbs.get, customerSegments,
    List.foldl, identifyClassificationFactors, selectContentAngle, SegmentId.key,
    calculateConsultationReadiness, consultationBaseScore, segmentMultipliers,
    List.find?, List.filter, jsDiv, jsMin, jsMax, jsMul, jsAdd]
  constructor
  · simp
  · simp
    norm_num [max_def, min_def]

/-- Claim C4 (amended): with all sixteen keys present and non-null, the
type-validation stage fails with an invalid-signal error exactly when
some required signal fails its per-signal type check; for non-flag
signals the check accepts exactly the values of type number that are not
`NaN` — in particular `+Infinity` and `-Infinity` are accepted and
classification proceeds on them (the original claim required rejection of
all non-finite numbers, which `C4_counterexample` refutes). -/
theorem C4_validation_type_check (signals : Signals)
    (hpresent : missingSignals signals = []) :
    ((∃ e, validateSegmentClassification signals = .error (.invalidSignalType e)) ↔
      ∃ k, signalTypeOk k (signals k) = false)
    ∧ (∀ k, isFlagSignal k = false →
        (signalTypeOk k (signals k) = true ↔
          typeofNumber (signals k) = true ∧ signals k ≠ .num .nan))
    ∧ (∀ k, isFlagSignal k = false →
        signalTypeOk k (.num .pinf) = true ∧ signalTypeOk k (.num .ninf) = true) := by
  have hmiss : ¬ 0 < (missingSignals signals).length := by
    rw [hpresent]
    simp
  refine ⟨?_, fun k hk => ?_, fun k hk => ?_⟩
  · rw [validateSegmentClassification, if_neg hmiss]
    cases hfind : requiredSignals.find? (fun k => !signalTypeOk k (signals k)) with
    | some k =>
        have hbad := List.find?_some hfind
        simp only [Bool.not_eq_true'] at hbad
        constructor
        · intro _
          exact ⟨k, hbad⟩
        · intro _
          exact ⟨k, rfl⟩
    | none =>
        have hall := List.find?_eq_none.mp hfind
        constructor
        · rintro ⟨e, he⟩
          by_cases hnan : jsIsNaN ((calculateSegmentProbabilities signals).get
              (selectPrimarySegment (calculateSegmentProbabilities signals))) = true
          · rw [if_pos hnan] at he
            cases he
          · rw [if_neg hnan] at he
            cases he
        · rintro ⟨k, hksig⟩
          have := hall k (mem_requiredSignals k)
          rw [hksig] at this
          simp at this
  · rw [signalTypeOk, if_neg (by rw [hk]; simp)]
    cases signals k with
    | num n => cases n <;> simp [typeofNumber, toNumber, jsIsNaN]
    | undef => simp [typeofNumber]
    | null => simp [typeofNumber]
    | boolean b => simp [typeofNumber]
    | other => simp [typeofNumber]
  · rw [signalTypeOk, signalTypeOk, if_neg (by rw [hk]; simp), if_neg (by rw [hk]; simp)]
    constructor <;> rfl

/-- Witness for the amended C4 at the concrete `+Infinity` input. -/
theorem C4_validation_type_check_witness :
    missingSignals infiniteDurationSignals = [] ∧
    (((∃ e, validateSegmentClassification infiniteDurationSignals =
          .error (.invalidSignalType e)) ↔
        ∃ k, signalTypeOk k (infiniteDurationSignals k) = false)
    ∧ (∀ k, isFlagSignal k = false →
        (signalTypeOk k (infiniteDurationSignals k) = true ↔
          typeofNumber (infiniteDurationSignals k) = true
            ∧ infiniteDurationSignals k ≠ .num .nan))
    ∧ (∀ k, isFlagSignal k = false →
        signalTypeOk k (.num .pinf) = true ∧ signalTypeOk k (.num .ninf) = true)) :=
  ⟨by decide, C4_validation_type_check infiniteDurationSignals (by decide)⟩

/-- Claim C5: whenever classification succeeds, the reported confidence
score is exactly the value stored under the primary segment's key in the
returned probability mapping. -/
theorem C5_confidence_is_primary_probability (signals : Signals) (r : Classification)
    (h : validateSegmentClassification signals = .ok r) :
    r.confidence_score = r.segment_probabilities.get r.primary_segment := by
  rw [validateSegmentClassification] at h
  by_cases hmiss : 0 < (missingSignals signals).length
  · rw [if_pos hmiss] at h
    cases h
  · rw [if_neg hmiss] at h
    cases hfind : requiredSignals.find? (fun k => !signalTypeOk k (signals k)) with
    | some k =>
        rw [hfind] at h
        cases h
    | none =>
        rw [hfind] at h
        by_cases hnan : jsIsNaN ((calculateSegmentProbabilities signals).get
            (selectPrimarySegment (calculateSegmentProbabilities signals))) = true
        · rw [if_pos hnan] at h
          cases h
        · rw [if_neg hnan] at h
          injection h with h2
          subst h2
          rfl

/-- The classification returned on the heritage sample vector. -/
def sampleHeritageResult : Classification :=
  { primary_segment := .italian_heritage_advocate
    confidence_score := .fin 1
    segment_probabilities :=
      { italian_heritage_advocate := .fin 1
        luxury_project_planner := .fin 0
        international_minimalist := .fin 0
        hospitality_professional := .fin 0 }
    classification_factors := ["High designer story engagement", "Strong craftsmanship interest",
                               "Extended heritage content consumption"]
    recommended_content_angle := "italian_heritage"
    consultation_readiness_score := .fin 0 }

lemma sampleHeritage_eval :
    validateSegmentClassification sampleHeritageSignals = .ok sampleHeritageResult := by
  norm_num [validateSegmentClassification, missingSignals, requiredSignals,
    sampleHeritageSignals, sampleHeritageResult, isMissing, signalTypeOk, isFlagSignal,
    typeofNumber, typeofBoolean, toNumber, calculateSegmentProbabilities, clamp01, truthy,
    selectPrimarySegment, SegmentProbs.entries, SegmentProbs.get, customerSegments,
    List.foldl, identifyClassificationFactors, selectContentAngle, SegmentId.key,
    calculateConsultationReadiness, consultationBaseScore, segmentMultipliers,
    List.find?, List.filter]

/-- Witness for C5 at the concrete heritage sample vector. -/
theorem C5_confidence_is_primary_probability_witness :
    validateSegmentClassification sampleHeritageSignals = .ok sampleHeritageResult ∧
    sampleHeritageResult.confidence_score =
      sampleHeritageResult.segment_probabilities.get sampleHeritageResult.primary_segment :=
  ⟨sampleHeritage_eval,
    C5_confidence_is_primary_probability sampleHeritageSignals sampleHeritageResult
      sampleHeritage_eval⟩

/-- Signal vector with `session_duration = -Infinity` and
`product_interaction_quality = +Infinity`; both pass validation, and
their sum inside the consultation base score is `NaN`. -/
def infinityReadinessSignals : Signals := fun k =>
  match k with
  | .session_duration => .num .ninf
  | .product_interaction_quality => .num .pinf
  | .multi_room_navigation => .boolean false
  | .return_visitor_pattern => .boolean false
  | _ => .num (.fin 0)

/-- Counterexample to C6: a vector that passes input validation for which
the returned consultation readiness score is `NaN`, hence not in `[0, 1]`. -/
theorem C6_counterexample :
    passesValidation infinityReadinessSignals = true ∧
    validateSegmentClassification infinityReadinessSignals = .ok
      { primary_segment := .international_minimalist
        confidence_score := .fin 0
        segment_probabilities :=
          { italian_heritage_advocate := .fin 0
            luxury_project_planner := .fin 0
            international_minimalist := .fin 0
            hospitality_professional := .fin 0 }
        classification_factors := []
        recommended_content_angle := "contemporary_integration"
        consultation_readiness_score := JSNum.nan } ∧
    ¬ ∃ p : ℚ, calculateConsultationReadiness infinityReadinessSignals
        SegmentId.international_minimalist.key = .fin p ∧ 0 ≤ p ∧ p ≤ 1 := by
  have heval : validateSegmentClassification infinityReadinessSignals = .ok
      { primary_segment := .international_minimalist
        confidence_score := .fin 0
        segment_probabilities :=
          { italian_heritage_advocate := .fin 0
            luxury_project_planner := .fin 0
            international_minimalist := .fin 0
            hospitality_professional := .fin 0 }
        classification_factors := []
        recommended_content_angle := "contemporary_integration"
        consultation_readiness_score := JSNum.nan } := by
    norm_num [validateSegmentClassification, missingSignals, requiredSignals,
      infinityReadinessSignals, isMissing, signalTypeOk, isFlagSignal, typeofNumber,
      typeofBoolean, toNumber, calculateSegmentProbabilities, clamp01, truthy,
      selectPrimarySegment, SegmentProbs.entries, SegmentProbs.get, customerSegments,
      List.foldl, identifyClassificationFactors, selectContentAngle, SegmentId.key,
      calculateConsultationReadiness, consultationBaseScore, segmentMultipliers,
      List.find?, List.filter, jsDiv, jsMin, jsMax, jsMul, jsAdd]
    simp
  have hnan : calculateConsultationReadiness infinityReadinessSignals
      SegmentId.international_minimalist.key = JSNum.nan := by
    norm_num [calculateConsultationReadiness, consultationBaseScore, infinityReadinessSignals,
      toNumber, truthy, segmentMultipliers, SegmentId.key, jsDiv, jsMin, jsMax, jsMul, jsAdd]
  refine ⟨by decide, heval, ?_⟩
  rintro ⟨p, hp, _⟩
  rw [hnan] at hp
  cases hp

/-- Claim C6 (amended): for every signal vector passing input validation
whose `session_duration`, `page_depth` and `product_interaction_quality`
are finite numbers, the consultation readiness score equals
`clamp((0.3*min(sd/600,1) + 0.2*min(pd/10,1) + 0.3*piq + 0.2*bool(rvp)) * m)`
with the per-segment multiplier `m` (planner 1.5, hospitality 1.3,
heritage 1.1, minimalist 0.8, and 1.0 for any other segment id), and the
score lies in `[0, 1]`.  (The original claim omits the finiteness
condition; validation admits infinite magnitudes which can make the score
`NaN`, as `C6_counterexample` shows.) -/
theorem C6_consultation_readiness (signals : Signals) (sd pd piq : ℚ)
    (hval : passesValidation signals = true)
    (hsd : signals .session_duration = .num (.fin sd))
    (hpd : signals .page_depth = .num (.fin pd))
    (hpiq : signals .product_interaction_quality = .num (.fin piq)) :
    (∀ seg : String,
      calculateConsultationReadiness signals seg =
        .fin (min (max ((0.3 * min (sd / 600) 1 + 0.2 * min (pd / 10) 1 + 0.3 * piq
          + 0.2 * (if truthy (signals .return_visitor_pattern) then (1 : ℚ) else 0))
          * segmentMultipliers seg) 0) 1)
      ∧ ∃ p : ℚ, calculateConsultationReadiness signals seg = .fin p ∧ 0 ≤ p ∧ p ≤ 1)
    ∧ (segmentMultipliers "luxury_project_planner" = 1.5
      ∧ segmentMultipliers "hospitality_professional" = 1.3
      ∧ segmentMultipliers "italian_heritage_advocate" = 1.1
      ∧ segmentMultipliers "international_minimalist" = 0.8)
    ∧ (∀ seg : String, seg ≠ "luxury_project_planner" → seg ≠ "hospitality_professional" →
        seg ≠ "italian_heritage_advocate" → seg ≠ "international_minimalist" →
        segmentMultipliers seg = 1) := by
  refine ⟨fun seg => ?_, ⟨by simp [segmentMultipliers], by simp [segmentMultipliers],
    by simp [segmentMultipliers], by simp [segmentMultipliers]⟩,
    fun seg h1 h2 h3 h4 => by simp [segmentMultipliers, h1, h2, h3, h4]⟩
  have hform : calculateConsultationReadiness signals seg =
      .fin (min (max ((0.3 * min (sd / 600) 1 + 0.2 * min (pd / 10) 1 + 0.3 * piq
        + 0.2 * (if truthy (signals .return_visitor_pattern) then (1 : ℚ) else 0))
        * segmentMultipliers seg) 0) 1) := by
    by_cases hb : truthy (signals .return_visitor_pattern) = true
    · simp only [calculateConsultationReadiness, consultationBaseScore, hsd, hpd, hpiq,
        toNumber, hb, if_true, jsDiv_fin_fin _ (by norm_num : (600 : ℚ) ≠ 0),
        jsDiv_fin_fin _ (by norm_num : (10 : ℚ) ≠ 0), jsMin_fin_fin, jsMul_fin_fin,
        jsAdd_fin_fin, jsMax_fin_fin, JSNum.fin.injEq]
      ring_nf
    · simp only [Bool.not_eq_true] at hb
      simp only [calculateConsultationReadiness, consultationBaseScore, hsd, hpd, hpiq,
        toNumber, hb, Bool.false_eq_true, if_false,
        jsDiv_fin_fin _ (by norm_num : (600 : ℚ) ≠ 0),
        jsDiv_fin_fin _ (by norm_num : (10 : ℚ) ≠ 0), jsMin_fin_fin, jsMul_fin_fin,
        jsAdd_fin_fin, jsMax_fin_fin, JSNum.fin.injEq]
      ring_nf
  exact ⟨hform, ⟨_, hform, le_min (le_max_right _ _) zero_le_one, min_le_right _ _⟩⟩

/-- Witness for the amended C6 at the concrete heritage sample vector. -/
theorem C6_consultation_readiness_witness :
    (passesValidation sampleHeritageSignals = true
      ∧ sampleHeritageSignals .session_duration = .num (.fin 0)
      ∧ sampleHeritageSignals .page_depth = .num (.fin 0)
      ∧ sampleHeritageSignals .product_interaction_quality = .num (.fin 0))
    ∧ ((∀ seg : String,
      calculateConsultationReadiness sampleHeritageSignals seg =
        .fin (min (max ((0.3 * min ((0 : ℚ) / 600) 1 + 0.2 * min ((0 : ℚ) / 10) 1 + 0.3 * 0
          + 0.2 * (if truthy (sampleHeritageSignals .return_visitor_pattern) then (1 : ℚ) else 0))
          * segmentMultipliers seg) 0) 1)
      ∧ ∃ p : ℚ, calculateConsultationReadiness sampleHeritageSignals seg = .fin p
          ∧ 0 ≤ p ∧ p ≤ 1)
    ∧ (segmentMultipliers "luxury_project_planner" = 1.5
      ∧ segmentMultipliers "hospitality_professional" = 1.3
      ∧ segmentMultipliers "italian_heritage_advocate" = 1.1
      ∧ segmentMultipliers "international_minimalist" = 0.8)
    ∧ (∀ seg : String, seg ≠ "luxury_project_planner" → seg ≠ "hospitality_professional" →
        seg ≠ "italian_heritage_advocate" → seg ≠ "international_minimalist" →
        segmentMultipliers seg = 1)) :=
  ⟨⟨by decide, rfl, rfl, rfl⟩,
    C6_consultation_readiness sampleHeritageSignals 0 0 0 (by decide) rfl rfl rfl⟩

/-! Helper lemmas for the three-check factor blocks. -/

lemma ifFactors_sublist (b1 b2 b3 : Bool) (x y z : String) :
    List.Sublist
      ((if b1 then [x] else []) ++ (if b2 then [y] else []) ++ (if b3 then [z] else []))
      [x, y, z] := by
  cases b1 <;> cases b2 <;> cases b3 <;> simp

lemma ifFactors_length (b1 b2 b3 : Bool) (x y z : String) :
    ((if b1 then [x] else []) ++ (if b2 then [y] else []) ++ (if b3 then [z] else [])).length
      ≤ 3 := by
  cases b1 <;> cases b2 <;> cases b3 <;> simp

lemma ifFactors_mem_fst (b1 b2 b3 : Bool) (x y z : String) (hxy : x ≠ y) (hxz : x ≠ z) :
    (x ∈ (if b1 then [x] else []) ++ (if b2 then [y] else []) ++ (if b3 then [z] else []))
      ↔ b1 = true := by
  cases b1 <;> cases b2 <;> cases b3 <;> simp [hxy, hxz]

lemma ifFactors_mem_snd (b1 b2 b3 : Bool) (x y z : String) (hyx : y ≠ x) (hyz : y ≠ z) :
    (y ∈ (if b1 then [x] else []) ++ (if b2 then [y] else []) ++ (if b3 then [z] else []))
      ↔ b2 = true := by
  cases b1 <;> cases b2 <;> cases b3 <;> simp [hyx, hyz]

lemma ifFactors_mem_trd (b1 b2 b3 : Bool) (x y z : String) (hzx : z ≠ x) (hzy : z ≠ y) :
    (z ∈ (if b1 then [x] else []) ++ (if b2 then [y] else []) ++ (if b3 then [z] else []))
      ↔ b3 = true := by
  cases b1 <;> cases b2 <;> cases b3 <;> simp [hzx, hzy]

/-- The fixed per-segment factor strings, in source order. -/
def segmentFactorStrings : SegmentId → List String
  | .italian_heritage_advocate =>
      ["High designer story engagement", "Strong craftsmanship interest",
       "Extended heritage content consumption"]
  | .luxury_project_planner =>
      ["Multi-room project exploration", "Complete project interest signals",
       "Premium budget indicators"]
  | .international_minimalist =>
      ["Clean aesthetic preference", "Integration-focused browsing",
       "Contemporary design pattern"]
  | .hospitality_professional =>
      ["Commercial scale indicators", "Technical specification focus",
       "Professional documentation interest"]

/-- Claim C7: classification factors are computed from the chosen primary
segment only; up to three fixed per-segment checks are evaluated (each
signal against the fixed threshold 0.6, except `heritage_content_time`
against 90 and the `multi_room_navigation` truthiness test); the fixed
string for each passing check is collected in the fixed per-segment
order, and the empty list is a valid result. -/
theorem C7_classification_factors (signals : Signals)
    (hval : passesValidation signals = true) :
    (∀ seg, List.Sublist (identifyClassificationFactors signals seg) (segmentFactorStrings seg)
      ∧ (identifyClassificationFactors signals seg).length ≤ 3)
    ∧ ("High designer story engagement" ∈
        identifyClassificationFactors signals .italian_heritage_advocate
        ↔ jsGt (toNumber (signals .designer_story_engagement)) (.fin 0.6) = true)
    ∧ ("Strong craftsmanship interest" ∈
        identifyClassificationFactors signals .italian_heritage_advocate
        ↔ jsGt (toNumber (signals .craftsmanship_content_focus)) (.fin 0.6) = true)
    ∧ ("Extended heritage content consumption" ∈
        identifyClassificationFactors signals .italian_heritage_advocate
        ↔ jsGt (toNumber (signals .heritage_content_time)) (.fin 90) = true)
    ∧ ("Multi-room project exploration" ∈
        identifyClassificationFactors signals .luxury_project_planner
        ↔ truthy (signals .multi_room_navigation) = true)
    ∧ ("Complete project interest signals" ∈
        identifyClassificationFactors signals .luxury_project_planner
        ↔ jsGt (toNumber (signals .complete_project_interest)) (.fin 0.6) = true)
    ∧ ("Premium budget indicators" ∈
        identifyClassificationFactors signals .luxury_project_planner
        ↔ jsGt (toNumber (signals .budget_premium_indicators)) (.fin 0.6) = true)
    ∧ ("Clean aesthetic preference" ∈
        identifyClassificationFactors signals .international_minimalist
        ↔ jsGt (toNumber (signals .clean_aesthetic_preference)) (.fin 0.6) = true)
    ∧ ("Integration-focused browsing" ∈
        identifyClassificationFactors signals .international_minimalist
        ↔ jsGt (toNumber (signals .integration_content_focus)) (.fin 0.6) = true)
    ∧ ("Contemporary design pattern" ∈
        identifyClassificationFactors signals .international_minimalist
        ↔ jsGt (toNumber (signals .contemporary_browsing_pattern)) (.fin 0.6) = true)
    ∧ ("Commercial scale indicators" ∈
        identifyClassificationFactors signals .hospitality_professional
        ↔ jsGt (toNumber (signals .commercial_scale_indicators)) (.fin 0.6) = true)
    ∧ ("Technical specification focus" ∈
        identifyClassificationFactors signals .hospitality_professional
        ↔ jsGt (toNumber (signals .durability_specs_interest)) (.fin 0.6) = true)
    ∧ ("Professional documentation interest" ∈
        identifyClassificationFactors signals .hospitality_professional
        ↔ jsGt (toNumber (signals .technical_documentation_focus)) (.fin 0.6) = true) := by
  refine ⟨fun seg => ?_, ?_, ?_, ?_, ?_, ?_, ?_, ?_, ?_, ?_, ?_, ?_, ?_⟩
  · cases seg <;>
      exact ⟨ifFactors_sublist _ _ _ _ _ _, ifFactors_length _ _ _ _ _ _⟩
  · exact ifFactors_mem_fst _ _ _ _ _ _ (by simp) (by simp)
  · exact ifFactors_mem_snd _ _ _ _ _ _ (by simp) (by simp)
  · exact ifFactors_mem_trd _ _ _ _ _ _ (by simp) (by simp)
  · exact ifFactors_mem_fst _ _ _ _ _ _ (by simp) (by simp)
  · exact ifFactors_mem_snd _ _ _ _ _ _ (by simp) (by simp)
  · exact ifFactors_mem_trd _ _ _ _ _ _ (by simp) (by simp)
  · exact ifFactors_mem_fst _ _ _ _ _ _ (by simp) (by simp)
  · exact ifFactors_mem_snd _ _ _ _ _ _ (by simp) (by simp)
  · exact ifFactors_mem_trd _ _ _ _ _ _ (by simp) (by simp)
  · exact ifFactors_mem_fst _ _ _ _ _ _ (by simp) (by simp)
  · exact ifFactors_mem_snd _ _ _ _ _ _ (by simp) (by simp)
  · exact ifFactors_mem_trd _ _ _ _ _ _ (by simp) (by simp)

/-- Witness for C7 at the concrete heritage sample vector. -/
theorem C7_classification_factors_witness :
    passesValidation sampleHeritageSignals = true ∧
    ((∀ seg, List.Sublist (identifyClassificationFactors sampleHeritageSignals seg)
        (segmentFactorStrings seg)
      ∧ (identifyClassificationFactors sampleHeritageSignals seg).length ≤ 3)
    ∧ ("High designer story engagement" ∈
        identifyClassificationFactors sampleHeritageSignals .italian_heritage_advocate
        ↔ jsGt (toNumber (sampleHeritageSignals .designer_story_engagement)) (.fin 0.6) = true)
    ∧ ("Strong craftsmanship interest" ∈
        identifyClassificationFactors sampleHeritageSignals .italian_heritage_advocate
        ↔ jsGt (toNumber (sampleHeritageSignals .craftsmanship_content_focus)) (.fin 0.6) = true)
    ∧ ("Extended heritage content consumption" ∈
        identifyClassificationFactors sampleHeritageSignals .italian_heritage_advocate
        ↔ jsGt (toNumber (sampleHeritageSignals .heritage_content_time)) (.fin 90) = true)
    ∧ ("Multi-room project exploration" ∈
        identifyClassificationFactors sampleHeritageSignals .luxury_project_planner
        ↔ truthy (sampleHeritageSignals .multi_room_navigation) = true)
    ∧ ("Complete project interest signals" ∈
        identifyClassificationFactors sampleHeritageSignals .luxury_project_planner
        ↔ jsGt (toNumber (sampleHeritageSignals .complete_project_interest)) (.fin 0.6) = true)
    ∧ ("Premium budget indicators" ∈
        identifyClassificationFactors sampleHeritageSignals .luxury_project_planner
        ↔ jsGt (toNumber (sampleHeritageSignals .budget_premium_indicators)) (.fin 0.6) = true)
    ∧ ("Clean aesthetic preference" ∈
        identifyClassificationFactors sampleHeritageSignals .international_minimalist
        ↔ jsGt (toNumber (sampleHeritageSignals .clean_aesthetic_preference)) (.fin 0.6) = true)
    ∧ ("Integration-focused browsing" ∈
        identifyClassificationFactors sampleHeritageSignals .international_minimalist
        ↔ jsGt (toNumber (sampleHeritageSignals .integration_content_focus)) (.fin 0.6) = true)
    ∧ ("Contemporary design pattern" ∈
        identifyClassificationFactors sampleHeritageSignals .international_minimalist
        ↔ jsGt (toNumber (sampleHeritageSignals .contemporary_browsing_pattern)) (.fin 0.6) = true)
    ∧ ("Commercial scale indicators" ∈
        identifyClassificationFactors sampleHeritageSignals .hospitality_professional
        ↔ jsGt (toNumber (sampleHeritageSignals .commercial_scale_indicators)) (.fin 0.6) = true)
    ∧ ("Technical specification focus" ∈
        identifyClassificationFactors sampleHeritageSignals .hospitality_professional
        ↔ jsGt (toNumber (sampleHeritageSignals .durability_specs_interest)) (.fin 0.6) = true)
    ∧ ("Professional documentation interest" ∈
        identifyClassificationFactors sampleHeritageSignals .hospitality_professional
        ↔ jsGt (toNumber (sampleHeritageSignals .technical_documentation_focus)) (.fin 0.6)
          = true)) :=
  ⟨by decide, C7_classification_factors sampleHeritageSignals (by decide)⟩

/-- Claim C8: classification is deterministic — it is a pure function of
the sixteen signal values, with no hidden randomness or state: two calls
on identical signal vectors return identical results. -/
theorem C8_classification_deterministic (s1 s2 : Signals)
    (h : ∀ k, s1 k = s2 k) :
    validateSegmentClassification s1 = validateSegmentClassification s2 := by
  have heq : s1 = s2 := funext h
  rw [heq]

/-- Witness for C8: two identical calls on the heritage sample vector. -/
theorem C8_classification_deterministic_witness :
    (∀ k, sampleHeritageSignals k = sampleHeritageSignals k) ∧
    validateSegmentClassification sampleHeritageSignals =
      validateSegmentClassification sampleHeritageSignals :=
  ⟨fun _ => rfl,
    C8_classification_deterministic sampleHeritageSignals sampleHeritageSignals fun _ => rfl⟩

/-- `typeof v === 'number'` with a finite (non-`NaN`, non-infinite) value. -/
def isFiniteNumber : JSValue → Bool
  | .num (.fin _) => true
  | _ => false

/-- The rational carried by a finite numeric value (0 otherwise). -/
def finValue : JSValue → ℚ
  | .num (.fin q) => q
  | _ => 0

lemma finite_signal_eq (v : JSValue) (h : isFiniteNumber v = true) :
    v = .num (.fin (finValue v)) := by
  cases v with
  | num n => cases n <;> simp_all [isFiniteNumber, finValue]
  | undef => simp [isFiniteNumber] at h
  | null => simp [isFiniteNumber] at h
  | boolean b => simp [isFiniteNumber] at h
  | other => simp [isFiniteNumber] at h

/-- With finite non-flag signals, every segment probability is a finite
rational in `[0, 1]`. -/
lemma calc_probs_fin (signals : Signals)
    (hfin : ∀ k, isFlagSignal k = false → isFiniteNumber (signals k) = true) :
    ∀ s, ∃ p : ℚ, (calculateSegmentProbabilities signals).get s = .fin p
        ∧ 0 ≤ p ∧ p ≤ 1 := by
  have hv : ∀ k, isFlagSignal k = false → signals k = .num (.fin (finValue (signals k))) :=
    fun k hk => finite_signal_eq (signals k) (hfin k hk)
  obtain ⟨a1, hv1⟩ : ∃ a, signals .designer_story_engagement = .num (.fin a) := ⟨_, hv _ rfl⟩
  obtain ⟨a2, hv2⟩ : ∃ a, signals .craftsmanship_content_focus = .num (.fin a) := ⟨_, hv _ rfl⟩
  obtain ⟨a3, hv3⟩ : ∃ a, signals .heritage_content_time = .num (.fin a) := ⟨_, hv _ rfl⟩
  obtain ⟨a4, hv4⟩ : ∃ a, signals .complete_project_interest = .num (.fin a) := ⟨_, hv _ rfl⟩
  obtain ⟨a5, hv5⟩ : ∃ a, signals .budget_premium_indicators = .num (.fin a) := ⟨_, hv _ rfl⟩
  obtain ⟨a6, hv6⟩ : ∃ a, signals .clean_aesthetic_preference = .num (.fin a) := ⟨_, hv _ rfl⟩
  obtain ⟨a7, hv7⟩ : ∃ a, signals .integration_content_focus = .num (.fin a) := ⟨_, hv _ rfl⟩
  obtain ⟨a8, hv8⟩ : ∃ a, signals .contemporary_browsing_pattern = .num (.fin a) := ⟨_, hv _ rfl⟩
  obtain ⟨a9, hv9⟩ : ∃ a, signals .commercial_scale_indicators = .num (.fin a) := ⟨_, hv _ rfl⟩
  obtain ⟨a10, hv10⟩ : ∃ a, signals .durability_specs_interest = .num (.fin a) := ⟨_, hv _ rfl⟩
  obtain ⟨a11, hv11⟩ : ∃ a, signals .technical_documentation_focus = .num (.fin a) :=
    ⟨_, hv _ rfl⟩
  have hclamp : ∀ s, (∃ y : ℚ, (calculateSegmentProbabilities signals).get s
      = clamp01 (.fin y)) →
      ∃ p : ℚ, (calculateSegmentProbabilities signals).get s = .fin p ∧ 0 ≤ p ∧ p ≤ 1 := by
    rintro s ⟨y, hy⟩
    exact ⟨_, by rw [hy, clamp01_fin], le_min (le_max_right _ _) zero_le_one,
      min_le_right _ _⟩
  intro s
  refine hclamp s ?_
  cases s with
  | italian_heritage_advocate =>
      refine ⟨a1 * 0.4 + a2 * 0.3 + min (a3 / 120) 1 * 0.3, ?_⟩
      simp only [SegmentProbs.get, calculateSegmentProbabilities, hv1, hv2, hv3, toNumber,
        jsMul_fin_fin, jsAdd_fin_fin, jsMin_fin_fin,
        jsDiv_fin_fin _ (by norm_num : (120 : ℚ) ≠ 0)]
  | luxury_project_planner =>
      refine ⟨(if truthy (signals .multi_room_navigation) then (1 : ℚ) else 0) * 0.35
        + a4 * 0.35 + a5 * 0.3, ?_⟩
      by_cases hb : truthy (signals .multi_room_navigation) = true
      · simp only [SegmentProbs.get, calculateSegmentProbabilities, hv4, hv5, toNumber, hb,
          if_true, jsMul_fin_fin, jsAdd_fin_fin]
      · simp only [Bool.not_eq_true] at hb
        simp only [SegmentProbs.get, calculateSegmentProbabilities, hv4, hv5, toNumber, hb,
          Bool.false_eq_true, if_false, jsMul_fin_fin, jsAdd_fin_fin]
  | international_minimalist =>
      refine ⟨a6 * 0.4 + a7 * 0.35 + a8 * 0.25, ?_⟩
      simp only [SegmentProbs.get, calculateSegmentProbabilities, hv6, hv7, hv8, toNumber,
        jsMul_fin_fin, jsAdd_fin_fin]
  | hospitality_professional =>
      refine ⟨a9 * 0.4 + a10 * 0.3 + a11 * 0.3, ?_⟩
      simp only [SegmentProbs.get, calculateSegmentProbabilities, hv9, hv10, hv11, toNumber,
        jsMul_fin_fin, jsAdd_fin_fin]

/-- Claim C9: for inputs passing validation whose non-flag signals are
all finite numbers, the computed confidence is a finite value in `[0, 1]`,
so classification succeeds and the internal guard that throws when the
confidence is `NaN` (or null/undefined) is unreachable. -/
theorem C9_confidence_guard_unreachable (signals : Signals)
    (hval : passesValidation signals = true)
    (hfin : ∀ k, isFlagSignal k = false → isFiniteNumber (signals k) = true) :
    (∃ r, validateSegmentClassification signals = .ok r
      ∧ ∃ p : ℚ, r.confidence_score = .fin p ∧ 0 ≤ p ∧ p ≤ 1)
    ∧ validateSegmentClassification signals ≠ .error .confidenceCalculationFailed := by
  obtain ⟨p, hp, h0, h1⟩ := calc_probs_fin signals hfin
    (selectPrimarySegment (calculateSegmentProbabilities signals))
  have hval' := hval
  rw [passesValidation, Bool.and_eq_true] at hval'
  obtain ⟨hempty, hnone⟩ := hval'
  have hmiss0 : missingSignals signals = [] := by
    cases hm : missingSignals signals with
    | nil => rfl
    | cons a t =>
        rw [hm] at hempty
        simp [List.isEmpty] at hempty
  have hmiss : ¬ 0 < (missingSignals signals).length := by
    rw [hmiss0]
    simp
  have hfind : requiredSignals.find? (fun k => !signalTypeOk k (signals k)) = none :=
    Option.isNone_iff_eq_none.mp hnone
  have hnan : jsIsNaN ((calculateSegmentProbabilities signals).get
      (selectPrimarySegment (calculateSegmentProbabilities signals))) = false := by
    rw [hp]
    rfl
  have hok : validateSegmentClassification signals = .ok
      { primary_segment := selectPrimarySegment (calculateSegmentProbabilities signals)
        confidence_score := (calculateSegmentProbabilities signals).get
          (selectPrimarySegment (calculateSegmentProbabilities signals))
        segment_probabilities := calculateSegmentProbabilities signals
        classification_factors := identifyClassificationFactors signals
          (selectPrimarySegment (calculateSegmentProbabilities signals))
        recommended_content_angle := selectContentAngle
          (selectPrimarySegment (calculateSegmentProbabilities signals)).key
        consultation_readiness_score := calculateConsultationReadiness signals
          (selectPrimarySegment (calculateSegmentProbabilities signals)).key } := by
    rw [validateSegmentClassification, if_neg hmiss]
    simp only [hfind]
    rw [if_neg (by rw [hnan]; simp)]
  refine ⟨⟨_, hok, ⟨p, hp, h0, h1⟩⟩, ?_⟩
  rw [hok]
  simp

/-- Witness for C9 at the concrete heritage sample vector. -/
theorem C9_confidence_guard_unreachable_witness :
    (passesValidation sampleHeritageSignals = true
      ∧ ∀ k, isFlagSignal k = false → isFiniteNumber (sampleHeritageSignals k) = true)
    ∧ ((∃ r, validateSegmentClassification sampleHeritageSignals = .ok r
        ∧ ∃ p : ℚ, r.confidence_score = .fin p ∧ 0 ≤ p ∧ p ≤ 1)
      ∧ validateSegmentClassification sampleHeritageSignals
          ≠ .error .confidenceCalculationFailed) :=
  ⟨⟨by decide, by decide⟩,
    C9_confidence_guard_unreachable sampleHeritageSignals (by decide) (by decide)⟩

/-- Claim C10: factor detection uses strict comparisons, so a factor
signal exactly equal to its threshold (0.6, or 90 for
`heritage_content_time`) produces no factor string. -/
theorem C10_factor_comparisons_strict (signals : Signals)
    (hval : passesValidation signals = true) :
    (signals .designer_story_engagement = .num (.fin 0.6) →
      "High designer story engagement" ∉
        identifyClassificationFactors signals .italian_heritage_advocate)
    ∧ (signals .craftsmanship_content_focus = .num (.fin 0.6) →
      "Strong craftsmanship interest" ∉
        identifyClassificationFactors signals .italian_heritage_advocate)
    ∧ (signals .heritage_content_time = .num (.fin 90) →
      "Extended heritage content consumption" ∉
        identifyClassificationFactors signals .italian_heritage_advocate)
    ∧ (signals .complete_project_interest = .num (.fin 0.6) →
      "Complete project interest signals" ∉
        identifyClassificationFactors signals .luxury_project_planner)
    ∧ (signals .budget_premium_indicators = .num (.fin 0.6) →
      "Premium budget indicators" ∉
        identifyClassificationFactors signals .luxury_project_planner)
    ∧ (signals .clean_aesthetic_preference = .num (.fin 0.6) →
      "Clean aesthetic preference" ∉
        identifyClassificationFactors signals .international_minimalist)
    ∧ (signals .integration_content_focus = .num (.fin 0.6) →
      "Integration-focused browsing" ∉
        identifyClassificationFactors signals .international_minimalist)
    ∧ (signals .contemporary_browsing_pattern = .num (.fin 0.6) →
      "Contemporary design pattern" ∉
        identifyClassificationFactors signals .international_minimalist)
    ∧ (signals .commercial_scale_indicators = .num (.fin 0.6) →
      "Commercial scale indicators" ∉
        identifyClassificationFactors signals .hospitality_professional)
    ∧ (signals .durability_specs_interest = .num (.fin 0.6) →
      "Technical specification focus" ∉
        identifyClassificationFactors signals .hospitality_professional)
    ∧ (signals .technical_documentation_focus = .num (.fin 0.6) →
      "Professional documentation interest" ∉
        identifyClassificationFactors signals .hospitality_professional) := by
  refine ⟨fun hsig hmem => ?_, fun hsig hmem => ?_, fun hsig hmem => ?_, fun hsig hmem => ?_,
    fun hsig hmem => ?_, fun hsig hmem => ?_, fun hsig hmem => ?_, fun hsig hmem => ?_,
    fun hsig hmem => ?_, fun hsig hmem => ?_, fun hsig hmem => ?_⟩
  · simp only [identifyClassificationFactors] at hmem
    have hcond := (ifFactors_mem_fst _ _ _ _ _ _ (by simp) (by simp)).mp hmem
    rw [hsig] at hcond
    simp only [toNumber, jsGt_fin_fin, decide_eq_true_eq] at hcond
    exact absurd hcond (by norm_num)
  · simp only [identifyClassificationFactors] at hmem
    have hcond := (ifFactors_mem_snd _ _ _ _ _ _ (by simp) (by simp)).mp hmem
    rw [hsig] at hcond
    simp only [toNumber, jsGt_fin_fin, decide_eq_true_eq] at hcond
    exact absurd hcond (by norm_num)
  · simp only [identifyClassificationFactors] at hmem
    have hcond := (ifFactors_mem_trd _ _ _ _ _ _ (by simp) (by simp)).mp hmem
    rw [hsig] at hcond
    simp only [toNumber, jsGt_fin_fin, decide_eq_true_eq] at hcond
    exact absurd hcond (by norm_num)
  · simp only [identifyClassificationFactors] at hmem
    have hcond := (ifFactors_mem_snd _ _ _ _ _ _ (by simp) (by simp)).mp hmem
    rw [hsig] at hcond
    simp only [toNumber, jsGt_fin_fin, decide_eq_true_eq] at hcond
    exact absurd hcond (by norm_num)
  · simp only [identifyClassificationFactors] at hmem
    have hcond := (ifFactors_mem_trd _ _ _ _ _ _ (by simp) (by simp)).mp hmem
    rw [hsig] at hcond
    simp only [toNumber, jsGt_fin_fin, decide_eq_true_eq] at hcond
    exact absurd hcond (by norm_num)
  · simp only [identifyClassificationFactors] at hmem
    have hcond := (ifFactors_mem_fst _ _ _ _ _ _ (by simp) (by simp)).mp hmem
    rw [hsig] at hcond
    simp only [toNumber, jsGt_fin_fin, decide_eq_true_eq] at hcond
    exact absurd hcond (by norm_num)
  · simp only [identifyClassificationFactors] at hmem
    have hcond := (ifFactors_mem_snd _ _ _ _ _ _ (by simp) (by simp)).mp hmem
    rw [hsig] at hcond
    simp only [toNumber, jsGt_fin_fin, decide_eq_true_eq] at hcond
    exact absurd hcond (by norm_num)
  · simp only [identifyClassificationFactors] at hmem
    have hcond := (ifFactors_mem_trd _ _ _ _ _ _ (by simp) (by simp)).mp hmem
    rw [hsig] at hcond
    simp only [toNumber, jsGt_fin_fin, decide_eq_true_eq] at hcond
    exact absurd hcond (by norm_num)
  · simp only [identifyClassificationFactors] at hmem
    have hcond := (ifFactors_mem_fst _ _ _ _ _ _ (by simp) (by simp)).mp hmem
    rw [hsig] at hcond
    simp only [toNumber, jsGt_fin_fin, decide_eq_true_eq] at hcond
    exact absurd hcond (by norm_num)
  · simp only [identifyClassificationFactors] at hmem
    have hcond := (ifFactors_mem_snd _ _ _ _ _ _ (by simp) (by simp)).mp hmem
    rw [hsig] at hcond
    simp only [toNumber, jsGt_fin_fin, decide_eq_true_eq] at hcond
    exact absurd hcond (by norm_num)
  · simp only [identifyClassificationFactors] at hmem
    have hcond := (ifFactors_mem_trd _ _ _ _ _ _ (by simp) (by simp)).mp hmem
    rw [hsig] at hcond
    simp only [toNumber, jsGt_fin_fin, decide_eq_true_eq] at hcond
    exact absurd hcond (by norm_num)

/-- Sample vector with `designer_story_engagement` exactly 0.6 and
`heritage_content_time` exactly 90. -/
def sampleThresholdSignals : Signals := fun k =>
  match k with
  | .designer_story_engagement => .num (.fin 0.6)
  | .craftsmanship_content_focus => .num (.fin 1)
  | .heritage_content_time => .num (.fin 90)
  | .multi_room_navigation => .boolean false
  | .return_visitor_pattern => .boolean false
  | _ => .num (.fin 0)

/-- Witness for C10 at a vector whose factor signals sit exactly on their
thresholds. -/
theorem C10_factor_comparisons_strict_witness :
    passesValidation sampleThresholdSignals = true ∧
    ((sampleThresholdSignals .designer_story_engagement = .num (.fin 0.6) →
      "High designer story engagement" ∉
        identifyClassificationFactors sampleThresholdSignals .italian_heritage_advocate)
    ∧ (sampleThresholdSignals .craftsmanship_content_focus = .num (.fin 0.6) →
      "Strong craftsmanship interest" ∉
        identifyClassificationFactors sampleThresholdSignals .italian_heritage_advocate)
    ∧ (sampleThresholdSignals .heritage_content_time = .num (.fin 90) →
      "Extended heritage content consumption" ∉
        identifyClassificationFactors sampleThresholdSignals .italian_heritage_advocate)
    ∧ (sampleThresholdSignals .complete_project_interest = .num (.fin 0.6) →
      "Complete project interest signals" ∉
        identifyClassificationFactors sampleThresholdSignals .luxury_project_planner)
    ∧ (sampleThresholdSignals .budget_premium_indicators = .num (.fin 0.6) →
      "Premium budget indicators" ∉
        identifyClassificationFactors sampleThresholdSignals .luxury_project_planner)
    ∧ (sampleThresholdSignals .clean_aesthetic_preference = .num (.fin 0.6) →
      "Clean aesthetic preference" ∉
        identifyClassificationFactors sampleThresholdSignals .international_minimalist)
    ∧ (sampleThresholdSignals .integration_content_focus = .num (.fin 0.6) →
      "Integration-focused browsing" ∉
        identifyClassificationFactors sampleThresholdSignals .international_minimalist)
    ∧ (sampleThresholdSignals .contemporary_browsing_pattern = .num (.fin 0.6) →
      "Contemporary design pattern" ∉
        identifyClassificationFactors sampleThresholdSignals .international_minimalist)
    ∧ (sampleThresholdSignals .commercial_scale_indicators = .num (.fin 0.6) →
      "Commercial scale indicators" ∉
        identifyClassificationFactors sampleThresholdSignals .hospitality_professional)
    ∧ (sampleThresholdSignals .durability_specs_interest = .num (.fin 0.6) →
      "Technical specification focus" ∉
        identifyClassificationFactors sampleThresholdSignals .hospitality_professional)
    ∧ (sampleThresholdSignals .technical_documentation_focus = .num (.fin 0.6) →
      "Professional documentation interest" ∉
        identifyClassificationFactors sampleThresholdSignals .hospitality_professional)) :=
  ⟨by decide, C10_factor_comparisons_strict sampleThresholdSignals (by decide)⟩
